import Mathlib

/-!
Verification development for the Python-TWS-BOT repository.

Shallow embedding of the core of the repository: the indicator library
(indicators.py), the signal state machine (strategy.py: TradingStrategy)
and the backtest engine (backtest.py: BacktestEngine).

Modelling conventions:
* Python floats are modelled as exact rationals extended with a NaN
  element (type PF).  Every comparison involving NaN is false, exactly
  as for IEEE floats in Python/pandas; arithmetic propagates NaN.
  Division by zero produces NaN in the model; in Python it raises, but
  no code path proved below ever divides by zero, so the two agree on
  every run appearing in a theorem.
* Pandas frames become Lean lists of per-bar records; the time index is
  a list of integers with strictly increasing values in the concrete
  data used (searchsorted alignment assumes a sorted index, as the
  repository does).
* Every mutable attribute of TradingStrategy becomes a field of the
  Strategy structure; Python attributes that start out unset
  (last_exit_reason) are Option-valued with none for the unset state.
-/

namespace TWS

/-- Python float modelled as a rational or NaN. -/
inductive PF where
  | nan : PF
  | num : ℚ → PF
deriving DecidableEq, Repr

namespace PF

/-- True when the value is NaN. -/
def isNan : PF → Bool
  | nan => true
  | num _ => false

/-- Addition, NaN propagating. -/
def add : PF → PF → PF
  | num a, num b => num (a + b)
  | _, _ => nan

/-- Subtraction, NaN propagating. -/
def sub : PF → PF → PF
  | num a, num b => num (a - b)
  | _, _ => nan

/-- Multiplication, NaN propagating. -/
def mul : PF → PF → PF
  | num a, num b => num (a * b)
  | _, _ => nan

/-- Division; NaN propagating, and division by zero gives NaN
(in Python it raises ZeroDivisionError; no proved run reaches it). -/
def div : PF → PF → PF
  | num a, num b => if b = 0 then nan else num (a / b)
  | _, _ => nan

/-- Absolute value, NaN propagating. -/
def abs : PF → PF
  | num a => num |a|
  | nan => nan

/-- Strict less-than; false whenever either side is NaN (IEEE style). -/
def lt : PF → PF → Bool
  | num a, num b => decide (a < b)
  | _, _ => false

/-- Less-or-equal; false whenever either side is NaN (IEEE style). -/
def le : PF → PF → Bool
  | num a, num b => decide (a ≤ b)
  | _, _ => false

/-- Strict greater-than; false whenever either side is NaN. -/
def gt (a b : PF) : Bool := lt b a

/-- Greater-or-equal; false whenever either side is NaN. -/
def ge (a b : PF) : Bool := le b a

/-- Python float equality: NaN is not equal to anything, including itself. -/
def pyEq : PF → PF → Bool
  | num a, num b => decide (a = b)
  | _, _ => false

/-- Maximum of two values in the pandas skipna style: a NaN operand is
ignored, the result is NaN only when both operands are NaN. -/
def maxSkip2 : PF → PF → PF
  | nan, y => y
  | x, nan => x
  | num a, num b => num (max a b)

/-- Minimum of two values in the pandas skipna style. -/
def minSkip2 : PF → PF → PF
  | nan, y => y
  | x, nan => x
  | num a, num b => num (min a b)

/-- Row-wise maximum with NaN skipped, as DataFrame.max(axis=1) computes it. -/
def maxSkip (l : List PF) : PF := l.foldl maxSkip2 nan

/-- Minimum over a column with NaN skipped, as Series.min() computes it. -/
def minSkip (l : List PF) : PF := l.foldl minSkip2 nan

/-- Sum of a column; NaN propagates (the columns summed in the engine
never contain NaN on the runs proved below). -/
def sum (l : List PF) : PF := l.foldl add (num 0)

end PF

/-- Signal and exit-reason strings used by strategy.py. -/
def BUY : String := "BUY"

/-- Sell signal string. -/
def SELL : String := "SELL"

/-- Take-profit exit reason string. -/
def TP_HIT : String := "TP_HIT"

/-- Stop-loss exit reason string. -/
def SL_HIT : String := "SL_HIT"

/-- Band-flip exit reason string. -/
def ST_FLIP : String := "ST_FLIP"

/-- Forced end-of-data exit reason string. -/
def END_OF_DATA : String := "END_OF_DATA"

/-- Default exit reason of exit_position. -/
def MANUAL : String := "MANUAL"

/-- Raw ten-minute OHLC bar (only the columns the code reads). -/
structure Bar10m where
  time : ℤ
  high : PF
  low : PF
  close : PF
deriving DecidableEq, Repr

/-- Ten-minute bar enriched by calculate_supertrend. -/
structure STBar where
  time : ℤ
  high : PF
  low : PF
  close : PF
  supertrend : PF
  st_direction : ℤ
  st_positive : Bool
deriving DecidableEq, Repr

/-- Raw hourly bar (only the close column is read by the core). -/
structure Bar1h where
  time : ℤ
  close : PF
deriving DecidableEq, Repr

/-- Hourly bar enriched by calculate_ema. -/
structure EBar where
  time : ℤ
  close : PF
  ema : PF
deriving DecidableEq, Repr

/-- Default ten-minute bar used for out-of-range list reads (never hit
on the concrete runs proved below). -/
def dfltBar10m : Bar10m := ⟨0, PF.nan, PF.nan, PF.nan⟩

/-- Default enriched ten-minute bar for out-of-range reads. -/
def dfltSTBar : STBar := ⟨0, PF.nan, PF.nan, PF.nan, PF.nan, 1, false⟩

/-- Default enriched hourly bar for out-of-range reads. -/
def dfltEBar : EBar := ⟨0, PF.nan, PF.nan⟩

/-- Default raw hourly bar for out-of-range reads. -/
def dfltBar1h : Bar1h := ⟨0, PF.nan⟩

/-! ## indicators.py -/

/-- True range at index i: row-wise max (NaN skipped) of high-low,
abs of high minus previous close, abs of low minus previous close;
the previous close is NaN at index 0 (the pandas shift). -/
def true_range (highs lows closes : ℕ → PF) (i : ℕ) : PF :=
  let prevClose : PF := if i = 0 then PF.nan else closes (i - 1)
  PF.maxSkip [(highs i).sub (lows i),
              ((highs i).sub prevClose).abs,
              ((lows i).sub prevClose).abs]

/-- Rolling mean of the true range over a window of the given period
(min_periods equal to the window, as pandas defaults): NaN until the
window is full or if any window entry is NaN. -/
def atr (highs lows closes : ℕ → PF) (period : ℕ) (i : ℕ) : PF :=
  if period = 0 then PF.nan
  else if i + 1 < period then PF.nan
  else ((List.range period).map
         (fun k => true_range highs lows closes (i + 1 - period + k))).foldl
         PF.add (PF.num 0) |>.div (PF.num period)

/-- Basic upper band: midpoint of high and low plus multiplier times ATR. -/
def basicUpper (highs lows closes : ℕ → PF) (period : ℕ) (mult : PF) (i : ℕ) : PF :=
  (((highs i).add (lows i)).div (PF.num 2)).add (mult.mul (atr highs lows closes period i))

/-- Basic lower band: midpoint of high and low minus multiplier times ATR. -/
def basicLower (highs lows closes : ℕ → PF) (period : ℕ) (mult : PF) (i : ℕ) : PF :=
  (((highs i).add (lows i)).div (PF.num 2)).sub (mult.mul (atr highs lows closes period i))

/-- Bar-by-bar supertrend recursion of calculate_supertrend: returns the
resolved band value and the direction at index i.  At i = 0 the value is
the basic upper band and the direction is 1; afterwards the bands are
first tightened against the previous resolved value and the 4-way rule
keyed on the previous direction resolves value and direction. -/
def stRec (closes ub lb : ℕ → PF) : ℕ → PF × ℤ
  | 0 => (ub 0, 1)
  | i + 1 =>
    let p := stRec closes ub lb i
    let stp := p.1
    let dirp := p.2
    let ubf := if (ub (i + 1)).lt stp || (closes i).gt stp then ub (i + 1) else stp
    let lbf := if (lb (i + 1)).gt stp || (closes i).lt stp then lb (i + 1) else stp
    if dirp = 1 && (closes (i + 1)).le ubf then (ubf, -1)
    else if dirp = -1 && (closes (i + 1)).ge lbf then (lbf, 1)
    else if dirp = 1 then (lbf, 1)
    else (ubf, -1)

/-- calculate_supertrend from indicators.py: enriches each bar with the
resolved band value, the direction column and the st_positive flag
(close strictly greater than the band value). -/
def calculate_supertrend (period : ℕ) (mult : PF) (bars : List Bar10m) : List STBar :=
  let highs : ℕ → PF := fun i => (bars.getD i dfltBar10m).high
  let lows : ℕ → PF := fun i => (bars.getD i dfltBar10m).low
  let closes : ℕ → PF := fun i => (bars.getD i dfltBar10m).close
  let ub : ℕ → PF := fun i => basicUpper highs lows closes period mult i
  let lb : ℕ → PF := fun i => basicLower highs lows closes period mult i
  (List.range bars.length).map (fun i =>
    let b := bars.getD i dfltBar10m
    let st := stRec closes ub lb i
    { time := b.time, high := b.high, low := b.low, close := b.close,
      supertrend := st.1, st_direction := st.2,
      st_positive := b.close.gt st.1 })

/-- Exponentially weighted mean with adjust=False: the seed is the first
close and each later value mixes the new close with weight alpha. -/
def emaRec (alpha : ℚ) (closes : ℕ → PF) : ℕ → PF
  | 0 => closes 0
  | i + 1 => ((PF.num alpha).mul (closes (i + 1))).add
      ((PF.num (1 - alpha)).mul (emaRec alpha closes i))

/-- calculate_ema from indicators.py: span-based smoothing factor
2/(period+1), adjust=False. -/
def calculate_ema (period : ℕ) (bars : List Bar1h) : List EBar :=
  let closes : ℕ → PF := fun i => (bars.getD i dfltBar1h).close
  (List.range bars.length).map (fun i =>
    let b := bars.getD i dfltBar1h
    { time := b.time, close := b.close,
      ema := emaRec (2 / (period + 1)) closes i })

/-! ## strategy.py: TradingStrategy -/

/-- Mutable state of TradingStrategy (strategy.py __init__), one field
per Python attribute.  last_exit_reason is unset (none) until the first
exit or exit check writes it. -/
structure Strategy where
  ema_period : ℕ
  st_atr_period : ℤ
  st_multiplier : PF
  tp_percent : PF
  sl_percent : PF
  position : ℤ
  entry_price : PF
  tp_price : PF
  sl_price : PF
  traded_in_bull_trend : Bool
  traded_in_bear_trend : Bool
  prev_st_bull : Option Bool
  prev_st_bear : Option Bool
  prev_1h_idx : Option ℕ
  prev_ema_bull : Option Bool
  last_signal_bar_idx : Option ℕ
  last_signal_direction : Option String
  last_exit_reason : Option String
deriving DecidableEq, Repr

/-- TradingStrategy constructor with explicit parameters. -/
def mkStrategy (ema_period : ℕ) (st_atr_period : ℤ) (st_multiplier tp_percent sl_percent : PF) :
    Strategy :=
  { ema_period := ema_period, st_atr_period := st_atr_period,
    st_multiplier := st_multiplier, tp_percent := tp_percent, sl_percent := sl_percent,
    position := 0, entry_price := PF.num 0, tp_price := PF.num 0, sl_price := PF.num 0,
    traded_in_bull_trend := false, traded_in_bear_trend := false,
    prev_st_bull := none, prev_st_bear := none,
    prev_1h_idx := none, prev_ema_bull := none,
    last_signal_bar_idx := none, last_signal_direction := none,
    last_exit_reason := none }

/-- TradingStrategy constructed with its default parameters
(ema 200, atr period 55, multiplier 3.8, tp 3.0, sl 0.55). -/
def defaultStrategy : Strategy :=
  mkStrategy 200 55 (PF.num (19 / 5)) (PF.num 3) (PF.num (11 / 20))

/-- prepare_data: empty inputs give empty outputs; a non-positive band
period makes pandas rolling raise, which prepare_data catches, again
returning empty frames; otherwise both series are enriched. -/
def prepare_data (s : Strategy) (df1h : List Bar1h) (df10m : List Bar10m) :
    List EBar × List STBar :=
  if df1h.isEmpty || df10m.isEmpty then ([], [])
  else if s.st_atr_period < 1 then ([], [])
  else (calculate_ema s.ema_period df1h,
        calculate_supertrend s.st_atr_period.toNat s.st_multiplier df10m)

/-- get_10m_supertrend_status: binary search (searchsorted side right,
minus one) for the last ten-minute bar at or before the given time on a
sorted index; returns the bullish flag (close strictly above the band),
the band value and the close, or false/none/none when no bar qualifies. -/
def get_10m_supertrend_status (df10m : List STBar) (t : ℤ) :
    Bool × Option PF × Option PF :=
  let c := (df10m.filter (fun b => b.time ≤ t)).length
  if c = 0 then (false, none, none)
  else
    let b := df10m.getD (c - 1) dfltSTBar
    (b.close.gt b.supertrend, some b.supertrend, some b.close)

/-- check_entry_signal: returns the signal (BUY, SELL or none), the
entry price, and the updated strategy state (previous-state trackers,
flag resets on flip or crossover, and the fired-signal guards). -/
def check_entry_signal (s : Strategy) (df1h : List EBar) (df10m : List STBar)
    (idx : ℕ) : Option String × Option PF × Strategy :=
  if df1h.length ≤ idx then (none, none, s)
  else
    let bar := df1h.getD idx dfltEBar
    let close1h := bar.close
    let ema1h := bar.ema
    let emaBull := close1h.gt ema1h
    let emaBear := close1h.lt ema1h
    let isNewCandle : Bool := s.prev_1h_idx != some idx
    let prevClose := if 0 < idx then (df1h.getD (idx - 1) dfltEBar).close else close1h
    let prevEma := if 0 < idx then (df1h.getD (idx - 1) dfltEBar).ema else ema1h
    let emaBullCross := emaBull && (prevClose.le prevEma || isNewCandle)
    let emaBearCross := emaBear && (prevClose.ge prevEma || isNewCandle)
    let st := get_10m_supertrend_status df10m bar.time
    let stBull := st.1
    let stBear := if st.2.1 ≠ none then !st.1 else false
    let stBullFlip := stBull && (s.prev_st_bull == some false)
    let stBearFlip := stBear && (s.prev_st_bull == some true)
    let tBull := if stBull && emaBullCross then false
                 else if stBullFlip then false else s.traded_in_bull_trend
    let tBear := if stBear && emaBearCross then false
                 else if stBearFlip then false else s.traded_in_bear_trend
    let base := { s with prev_st_bull := some stBull, prev_st_bear := some stBear,
                         prev_1h_idx := some idx, prev_ema_bull := some emaBull,
                         traded_in_bull_trend := tBull, traded_in_bear_trend := tBear }
    if s.position == 0 && stBull && emaBull && !tBull && (stBullFlip || emaBullCross)
        && !(s.last_signal_bar_idx == some idx && s.last_signal_direction == some BUY) then
      (some BUY, some close1h,
        { base with traded_in_bull_trend := true,
                    last_signal_bar_idx := some idx, last_signal_direction := some BUY })
    else if s.position == 0 && stBear && emaBear && !tBear && (stBearFlip || emaBearCross)
        && !(s.last_signal_bar_idx == some idx && s.last_signal_direction == some SELL) then
      (some SELL, some close1h,
        { base with traded_in_bear_trend := true,
                    last_signal_bar_idx := some idx, last_signal_direction := some SELL })
    else (none, none, base)

/-- check_exit_signal: for a long, take profit when price reaches the
TP level, else stop loss when it reaches the SL level, else band flip
when the aligned fast bar is not bullish; mirrored comparisons for a
short.  The returned state records last_exit_reason on a hit. -/
def check_exit_signal (s : Strategy) (df10m : List STBar) (df1h : List EBar)
    (t : ℤ) (price : PF) (idx : ℕ) : Option String × Strategy :=
  if s.position == 0 then (none, s)
  else
    let st := get_10m_supertrend_status df10m t
    let stBull := st.1
    let stBear := if st.2.1 ≠ none then !st.1 else false
    if s.position == 1 then
      if price.ge s.tp_price then (some TP_HIT, { s with last_exit_reason := some TP_HIT })
      else if price.le s.sl_price then (some SL_HIT, { s with last_exit_reason := some SL_HIT })
      else if stBear then (some ST_FLIP, { s with last_exit_reason := some ST_FLIP })
      else (none, s)
    else if s.position == -1 then
      if price.le s.tp_price then (some TP_HIT, { s with last_exit_reason := some TP_HIT })
      else if price.ge s.sl_price then (some SL_HIT, { s with last_exit_reason := some SL_HIT })
      else if stBull then (some ST_FLIP, { s with last_exit_reason := some ST_FLIP })
      else (none, s)
    else (none, s)

/-- can_reenter: false unless the last exit reason is TP_HIT and the
index is in range; then true when the slow close and the aligned fast
bar are directionally aligned on either side. -/
def can_reenter (s : Strategy) (df1h : List EBar) (df10m : List STBar) (idx : ℕ) : Bool :=
  if s.last_exit_reason != some TP_HIT then false
  else if df1h.length ≤ idx then false
  else
    let bar := df1h.getD idx dfltEBar
    let stPos := (get_10m_supertrend_status df10m bar.time).1
    (bar.close.gt bar.ema && stPos) || (bar.close.lt bar.ema && !stPos)

/-- enter_position: sets the position sign from the action, the entry
price, and the TP/SL levels as price times (1 plus/minus pct/100). -/
def enter_position (s : Strategy) (action : String) (price : PF) : Strategy :=
  let hundred := PF.num 100
  let one := PF.num 1
  if action == BUY then
    { s with position := 1, entry_price := price,
             tp_price := price.mul (one.add (s.tp_percent.div hundred)),
             sl_price := price.mul (one.sub (s.sl_percent.div hundred)) }
  else
    { s with position := -1, entry_price := price,
             tp_price := price.mul (one.sub (s.tp_percent.div hundred)),
             sl_price := price.mul (one.add (s.sl_percent.div hundred)) }

/-- exit_position: a no-op returning none while flat; otherwise returns
the percentage P&L relative to the entry price, stores the exit reason
and resets position, entry price and TP/SL levels to the flat state.
The already-traded flags are deliberately not touched. -/
def exit_position (s : Strategy) (price : PF) (reason : String) : Option PF × Strategy :=
  if s.position == 0 then (none, s)
  else
    let pnl :=
      if s.position == 1 then ((price.sub s.entry_price).div s.entry_price).mul (PF.num 100)
      else ((s.entry_price.sub price).div s.entry_price).mul (PF.num 100)
    (some pnl,
      { s with last_exit_reason := some reason,
               position := 0, entry_price := PF.num 0,
               tp_price := PF.num 0, sl_price := PF.num 0 })

/-- reset_trade_flags: clears both already-traded flags and every
flip/crossover tracker. -/
def reset_trade_flags (s : Strategy) : Strategy :=
  { s with traded_in_bull_trend := false, traded_in_bear_trend := false,
           prev_st_bull := none, prev_st_bear := none,
           prev_1h_idx := none, prev_ema_bull := none,
           last_signal_bar_idx := none, last_signal_direction := none }

/-- update_parameters: each supplied value that differs from the
current one is applied (no validation is performed); when any parameter
changed the trade flags are reset. -/
def update_parameters (s : Strategy) (tp_percent sl_percent : Option PF)
    (st_atr_period : Option ℤ) (st_multiplier : Option PF) : Strategy :=
  let tpRes := match tp_percent with
    | some v => if !(PF.pyEq v s.tp_percent) then (v, true) else (s.tp_percent, false)
    | none => (s.tp_percent, false)
  let slRes := match sl_percent with
    | some v => if !(PF.pyEq v s.sl_percent) then (v, true) else (s.sl_percent, false)
    | none => (s.sl_percent, false)
  let apRes := match st_atr_period with
    | some v => if v ≠ s.st_atr_period then (v, true) else (s.st_atr_period, false)
    | none => (s.st_atr_period, false)
  let mRes := match st_multiplier with
    | some v => if !(PF.pyEq v s.st_multiplier) then (v, true) else (s.st_multiplier, false)
    | none => (s.st_multiplier, false)
  let s1 := { s with tp_percent := tpRes.1, sl_percent := slRes.1,
                     st_atr_period := apRes.1, st_multiplier := mRes.1 }
  if tpRes.2 || slRes.2 || apRes.2 || mRes.2 then reset_trade_flags s1 else s1

/-! ## backtest.py: BacktestEngine -/

/-- Trade record appended by run_backtest. -/
structure Trade where
  entry_time : ℤ
  exit_time : ℤ
  entry_price : PF
  exit_price : PF
  pnl_pct : PF
  pnl_dollar : PF
  exit_reason : String
deriving DecidableEq, Repr

/-- Equity-curve point appended once per processed hourly bar. -/
structure EquityPoint where
  time : ℤ
  equity : PF
  price : PF
deriving DecidableEq, Repr

/-- Mutable state of BacktestEngine. -/
structure Engine where
  strategy : Strategy
  initial_capital : PF
  capital : PF
  trades : List Trade
  equity_curve : List EquityPoint
deriving DecidableEq, Repr

/-- BacktestEngine constructor. -/
def mkEngine (s : Strategy) (initial_capital : PF) : Engine :=
  { strategy := s, initial_capital := initial_capital, capital := initial_capital,
    trades := [], equity_curve := [] }

/-- Statistics dictionary returned by calculate_statistics. -/
structure Stats where
  total_trades : ℕ
  winning_trades : ℕ
  losing_trades : ℕ
  win_rate : PF
  total_pnl : PF
  total_pnl_pct : PF
  avg_win : PF
  avg_loss : PF
  profit_factor : PF
  max_drawdown : PF
  final_capital : PF
  roi : PF
  trades : List Trade
  equity_curve : List EquityPoint
deriving DecidableEq, Repr

/-- Running peak of the equity values (expanding max, NaN skipped),
paired with each equity value. -/
def expandingPeaks (eq : List PF) : List (PF × PF) :=
  (eq.foldl (fun acc x =>
    let peak := PF.maxSkip2 acc.1 x
    (peak, acc.2 ++ [(x, peak)])) (PF.nan, [])).2

/-- calculate_statistics: the all-zero record when no trade was taken,
otherwise win/loss counts and rates, P&L sums and averages, profit
factor (zero when there are no losses), maximum drawdown of the equity
curve and return on initial capital. -/
def calculate_statistics (e : Engine) : Stats :=
  if e.trades.isEmpty then
    { total_trades := 0, winning_trades := 0, losing_trades := 0,
      win_rate := PF.num 0, total_pnl := PF.num 0, total_pnl_pct := PF.num 0,
      avg_win := PF.num 0, avg_loss := PF.num 0, profit_factor := PF.num 0,
      max_drawdown := PF.num 0, final_capital := e.capital, roi := PF.num 0,
      trades := [], equity_curve := e.equity_curve }
  else
    let wins := e.trades.filter (fun tr => tr.pnl_pct.gt (PF.num 0))
    let losses := e.trades.filter (fun tr => tr.pnl_pct.le (PF.num 0))
    let total := e.trades.length
    let wc := wins.length
    let lc := losses.length
    let winRate := PF.num ((wc : ℚ) / (total : ℚ) * 100)
    let totalPnl := PF.sum (e.trades.map Trade.pnl_dollar)
    let totalPnlPct := PF.sum (e.trades.map Trade.pnl_pct)
    let avgWin := if 0 < wc then (PF.sum (wins.map Trade.pnl_pct)).div (PF.num wc)
                  else PF.num 0
    let avgLoss := if 0 < lc then ((PF.sum (losses.map Trade.pnl_pct)).div (PF.num lc)).abs
                   else PF.num 0
    let totalWins := if 0 < wc then PF.sum (wins.map Trade.pnl_dollar) else PF.num 0
    let totalLosses := if 0 < lc then (PF.sum (losses.map Trade.pnl_dollar)).abs else PF.num 0
    let profitFactor := if (PF.num 0).lt totalLosses then totalWins.div totalLosses
                        else PF.num 0
    let maxDrawdown :=
      if e.equity_curve.isEmpty then PF.num 0
      else PF.minSkip ((expandingPeaks (e.equity_curve.map EquityPoint.equity)).map
        (fun p => ((p.1.sub p.2).div p.2).mul (PF.num 100)))
    let roi := ((e.capital.sub e.initial_capital).div e.initial_capital).mul (PF.num 100)
    { total_trades := total, winning_trades := wc, losing_trades := lc,
      win_rate := winRate, total_pnl := totalPnl, total_pnl_pct := totalPnlPct,
      avg_win := avgWin, avg_loss := avgLoss, profit_factor := profitFactor,
      max_drawdown := maxDrawdown, final_capital := e.capital, roi := roi,
      trades := e.trades, equity_curve := e.equity_curve }

/-- One iteration of the run_backtest bar loop: exit check with the
take-profit re-entry path, then the entry check, then the equity
snapshot.  The accumulator carries the engine and the tracked entry
time of the open position. -/
def runStep (df1h : List EBar) (df10m : List STBar)
    (acc : Engine × Option ℤ) (i : ℕ) : Engine × Option ℤ :=
  let e := acc.1
  let entryTime := acc.2
  let bar := df1h.getD i dfltEBar
  let t := bar.time
  let price := bar.close
  let afterExit : Engine × Option ℤ :=
    if e.strategy.position ≠ 0 then
      let ex := check_exit_signal e.strategy df10m df1h t price i
      match ex.1 with
      | some reason =>
        let exr := exit_position ex.2 price reason
        match exr.1 with
        | some pnl =>
          let s2 := exr.2
          let positionValue := e.capital.mul (PF.num (1 / 10))
          let pnlDollar := positionValue.mul (pnl.div (PF.num 100))
          let trade : Trade :=
            { entry_time := entryTime.getD t, exit_time := t,
              entry_price := s2.entry_price, exit_price := price,
              pnl_pct := pnl, pnl_dollar := pnlDollar, exit_reason := reason }
          let e1 := { e with strategy := s2, capital := e.capital.add pnlDollar,
                             trades := e.trades ++ [trade] }
          if reason == TP_HIT then
            if can_reenter s2 df1h df10m i then
              let en := check_entry_signal s2 df1h df10m i
              match en.1 with
              | some sg =>
                ({ e1 with strategy := enter_position en.2.2 sg (en.2.1.getD price) }, some t)
              | none => ({ e1 with strategy := en.2.2 }, none)
            else (e1, none)
          else (e1, none)
        | none => ({ e with strategy := exr.2 }, entryTime)
      | none => ({ e with strategy := ex.2 }, entryTime)
    else (e, entryTime)
  let afterEntry : Engine × Option ℤ :=
    let e2 := afterExit.1
    if e2.strategy.position == 0 then
      let en := check_entry_signal e2.strategy df1h df10m i
      match en.1 with
      | some sg =>
        ({ e2 with strategy := enter_position en.2.2 sg (en.2.1.getD price) }, some t)
      | none => ({ e2 with strategy := en.2.2 }, afterExit.2)
    else afterExit
  ({ afterEntry.1 with
      equity_curve := afterEntry.1.equity_curve ++ [⟨t, afterEntry.1.capital, price⟩] },
    afterEntry.2)

/-- Forced close of a still-open position at the last bar with reason
END_OF_DATA, appending the corresponding trade record. -/
def closeFinal (df1h : List EBar) (acc : Engine × Option ℤ) : Engine :=
  let e := acc.1
  if e.strategy.position ≠ 0 then
    let fbar := df1h.getD (df1h.length - 1) dfltEBar
    let exr := exit_position e.strategy fbar.close END_OF_DATA
    match exr.1 with
    | some pnl =>
      let s2 := exr.2
      let positionValue := e.capital.mul (PF.num (1 / 10))
      let pnlDollar := positionValue.mul (pnl.div (PF.num 100))
      let trade : Trade :=
        { entry_time := acc.2.getD fbar.time, exit_time := fbar.time,
          entry_price := s2.entry_price, exit_price := fbar.close,
          pnl_pct := pnl, pnl_dollar := pnlDollar, exit_reason := END_OF_DATA }
      { e with strategy := s2, capital := e.capital.add pnlDollar,
               trades := e.trades ++ [trade] }
    | none => { e with strategy := exr.2 }
  else e

/-- run_backtest: validates the inputs, prepares the data, resets the
per-run engine state (capital, trades, equity curve and the strategy
position only: the other strategy attributes persist across runs),
iterates the hourly bars, force-closes any open position and returns
the statistics together with the final engine state. -/
def run_backtest (e : Engine) (df1h : List Bar1h) (df10m : List Bar10m) :
    Stats × Engine :=
  if df1h.isEmpty then (calculate_statistics e, e)
  else if df10m.isEmpty then (calculate_statistics e, e)
  else
    let p := prepare_data e.strategy df1h df10m
    if p.1.isEmpty || p.2.isEmpty then (calculate_statistics e, e)
    else
      let e0 : Engine := { e with capital := e.initial_capital, trades := [],
                                  equity_curve := [],
                                  strategy := { e.strategy with position := 0 } }
      let acc := (List.range p.1.length).foldl (runStep p.1 p.2) (e0, none)
      let e2 := closeFinal p.1 acc
      (calculate_statistics e2, e2)

/-! ## Claim-level notions -/

/-- One public operation on the strategy state machine, as enumerated
by the flat-state invariant claim. -/
inductive Op where
  | enterOp (action : String) (price : ℚ)
  | exitOp (price : PF) (reason : String)
  | checkEntryOp (df1h : List EBar) (df10m : List STBar) (idx : ℕ)
  | checkExitOp (df10m : List STBar) (df1h : List EBar) (t : ℤ) (price : PF) (idx : ℕ)
  | updateOp (tp_percent sl_percent : Option PF) (st_atr_period : Option ℤ)
      (st_multiplier : Option PF)
deriving DecidableEq, Repr

/-- State effect of one operation (returned values discarded). -/
def applyOp (s : Strategy) : Op → Strategy
  | Op.enterOp action price => enter_position s action (PF.num price)
  | Op.exitOp price reason => (exit_position s price reason).2
  | Op.checkEntryOp d1 d10 i => (check_entry_signal s d1 d10 i).2.2
  | Op.checkExitOp d10 d1 t p i => (check_exit_signal s d10 d1 t p i).2
  | Op.updateOp tp sl ap m => update_parameters s tp sl ap m

/-- State after a sequence of operations. -/
def applyOps (s : Strategy) (ops : List Op) : Strategy := ops.foldl applyOp s

/-- Validity of an operation as the flat-state claim restricts it:
enter_position is called with a positive price, the rest are free. -/
def validOp : Op → Bool
  | Op.enterOp _ price => decide (0 < price)
  | _ => true

/-- Flat-state invariant exactly as the claim states it: flat iff zero
entry price iff both the TP and SL levels are zero. -/
def flatInvClaim (s : Strategy) : Prop :=
  (s.position = 0 ↔ s.entry_price = PF.num 0) ∧
  (s.entry_price = PF.num 0 ↔ (s.tp_price = PF.num 0 ∧ s.sl_price = PF.num 0))

/-- Amended flat-state invariant: flat iff zero entry price, and a flat
state carries zero TP and SL levels.  (The converse of the TP/SL clause
fails: degenerate percentages accepted by update_parameters can zero
the levels of an open position.) -/
def flatInvAmended (s : Strategy) : Prop :=
  (s.position = 0 ↔ s.entry_price = PF.num 0) ∧
  (s.position = 0 → s.tp_price = PF.num 0 ∧ s.sl_price = PF.num 0)

instance (s : Strategy) : Decidable (flatInvClaim s) := by
  unfold flatInvClaim; infer_instance

instance (s : Strategy) : Decidable (flatInvAmended s) := by
  unfold flatInvAmended; infer_instance

/-- Modelled from the spec: the percentage P&L relative to the entry
price that the exit operation must return, by position direction. -/
def pctPnlSpec (position : ℤ) (entry price : PF) : PF :=
  if position = 1 then ((price.sub entry).div entry).mul (PF.num 100)
  else ((entry.sub price).div entry).mul (PF.num 100)

/-- Closes strictly rising across the whole fast series. -/
def closesRising : List Bar10m → Bool
  | [] => true
  | [_] => true
  | a :: b :: rest => a.close.lt b.close && closesRising (b :: rest)

/-- Valid high/low values: numeric, with the low at most the close and
the close at most the high. -/
def validHL (bars : List Bar10m) : Bool :=
  bars.all (fun b => !b.high.isNan && !b.low.isNan && !b.close.isNan
    && b.low.le b.close && b.close.le b.high)

/-- Number of sign flips of the direction column across the series. -/
def countFlips : List ℤ → ℕ
  | [] => 0
  | [_] => 0
  | a :: b :: rest => (if a ≠ b then 1 else 0) + countFlips (b :: rest)

/-! ## Concrete series used in counterexamples and failing inputs -/

/-- Three hourly bars: close dips from 100 to 90 and recovers to 100. -/
def d1hA : List Bar1h := [⟨10, PF.num 100⟩, ⟨20, PF.num 90⟩, ⟨30, PF.num 100⟩]

/-- A single ten-minute bar, aligned before every hourly bar; with the
default 55-bar band period its band value is NaN. -/
def d10A : List Bar10m := [⟨0, PF.num 101, PF.num 99, PF.num 100⟩]

/-- Fresh engine over the default strategy with capital 100000. -/
def engA : Engine := mkEngine defaultStrategy (PF.num 100000)

/-- First backtest run on the three-bar series. -/
def runA1 : Stats × Engine := run_backtest engA d1hA d10A

/-- Second run on the same engine instance, same inputs. -/
def runA2 : Stats × Engine := run_backtest runA1.2 d1hA d10A

/-- Two hourly bars (fewer than three): close falls from 100 to 90. -/
def d1hB : List Bar1h := [⟨10, PF.num 100⟩, ⟨20, PF.num 90⟩]

/-- Two ten-minute bars (fewer than three). -/
def d10B : List Bar10m :=
  [⟨0, PF.num 101, PF.num 99, PF.num 100⟩, ⟨5, PF.num 100, PF.num 98, PF.num 99⟩]

/-- Backtest run on the under-three-bar series. -/
def runB : Stats × Engine := run_backtest (mkEngine defaultStrategy (PF.num 100000)) d1hB d10B

/-- Monotonically rising four-bar fast series with valid highs/lows. -/
def d10C : List Bar10m :=
  [⟨0, PF.num 2, PF.num 0, PF.num 1⟩,
   ⟨1, PF.num 12, PF.num 10, PF.num 11⟩,
   ⟨2, PF.num 22, PF.num 20, PF.num 21⟩,
   ⟨3, PF.num 32, PF.num 30, PF.num 31⟩]

/-- Band computation on the rising series with period 1, multiplier 1. -/
def stC : List STBar := calculate_supertrend 1 (PF.num 1) d10C

/-- Long position whose TP and SL are both out of reach at price 100. -/
def sC2 : Strategy :=
  { defaultStrategy with position := 1, entry_price := PF.num 100,
                         tp_price := PF.num 110, sl_price := PF.num 90 }

/-- One aligned fast bar whose close equals its band value exactly. -/
def d10tie : List STBar := [⟨0, PF.num 51, PF.num 49, PF.num 50, PF.num 50, 1, false⟩]

/-- Strategy state reached by opening a long at 100 and closing it at
103 with a take-profit: the trade that was just closed was a BUY. -/
def sC8 : Strategy :=
  (exit_position (enter_position defaultStrategy BUY (PF.num 100)) (PF.num 103) TP_HIT).2

/-- Slow bar below its EMA: bearish alignment on the slow side. -/
def d1hC8 : List EBar := [⟨10, PF.num 90, PF.num 95⟩]

/-- Aligned fast bar below its band value: bearish on the fast side. -/
def d10C8 : List STBar := [⟨0, PF.nan, PF.nan, PF.num 40, PF.num 50, 1, false⟩]

/-- Operation sequence of the flat-invariant counterexample: degenerate
percentages (tp -100, sl 100) accepted by update_parameters, followed
by a BUY entry at the positive price 100. -/
def opsC1 : List Op :=
  [Op.updateOp (some (PF.num (-100))) (some (PF.num 100)) none none,
   Op.enterOp BUY 100]

/-- Prepared (indicator-enriched) series of the three-bar run. -/
def pA : List EBar × List STBar := prepare_data defaultStrategy d1hA d10A

/-- Engine and entry-time tracker right after the first two bars of the
three-bar run (the loop prefix before the bar that exits the trade):
the short position entered at 90 is still open here. -/
def midA : Engine × Option ℤ := (List.range 2).foldl (runStep pA.1 pA.2) (engA, none)

/-! ## Theorems -/

section Claims

attribute [local semireducible] Rat.add Rat.mul Rat.sub Rat.inv Rat.ofScientific

set_option maxRecDepth 100000

/-- check_entry_signal never touches the position, entry price or TP/SL
levels: it only updates trackers and the already-traded flags. -/
lemma check_entry_signal_frame (s : Strategy) (d1 : List EBar) (d10 : List STBar) (i : ℕ) :
    ((check_entry_signal s d1 d10 i).2.2).position = s.position ∧
    ((check_entry_signal s d1 d10 i).2.2).entry_price = s.entry_price ∧
    ((check_entry_signal s d1 d10 i).2.2).tp_price = s.tp_price ∧
    ((check_entry_signal s d1 d10 i).2.2).sl_price = s.sl_price := by
  simp only [check_entry_signal]
  repeat' split
  all_goals simp

/-- check_exit_signal only records last_exit_reason: position, entry
price and TP/SL levels are untouched. -/
lemma check_exit_signal_frame (s : Strategy) (d10 : List STBar) (d1 : List EBar)
    (t : ℤ) (p : PF) (i : ℕ) :
    ((check_exit_signal s d10 d1 t p i).2).position = s.position ∧
    ((check_exit_signal s d10 d1 t p i).2).entry_price = s.entry_price ∧
    ((check_exit_signal s d10 d1 t p i).2).tp_price = s.tp_price ∧
    ((check_exit_signal s d10 d1 t p i).2).sl_price = s.sl_price := by
  simp only [check_exit_signal]
  repeat' split
  all_goals simp

/-- update_parameters only rewrites the parameter fields and the
trackers reset by reset_trade_flags: position, entry price and TP/SL
levels are untouched. -/
lemma update_parameters_frame (s : Strategy) (tp sl : Option PF) (ap : Option ℤ)
    (m : Option PF) :
    (update_parameters s tp sl ap m).position = s.position ∧
    (update_parameters s tp sl ap m).entry_price = s.entry_price ∧
    (update_parameters s tp sl ap m).tp_price = s.tp_price ∧
    (update_parameters s tp sl ap m).sl_price = s.sl_price := by
  unfold update_parameters reset_trade_flags
  repeat' split
  all_goals simp

/-- The amended flat invariant only depends on the four fields it reads. -/
lemma flatInvAmended_of_fields (s t : Strategy) (h1 : t.position = s.position)
    (h2 : t.entry_price = s.entry_price) (h3 : t.tp_price = s.tp_price)
    (h4 : t.sl_price = s.sl_price) (h : flatInvAmended s) : flatInvAmended t := by
  unfold flatInvAmended at h ⊢
  rw [h1, h2, h3, h4]
  exact h

/-- Every valid operation preserves the amended flat invariant. -/
lemma flatInvAmended_step (s : Strategy) (op : Op) (hv : validOp op = true)
    (h : flatInvAmended s) : flatInvAmended (applyOp s op) := by
  cases op with
  | enterOp a p =>
    have hp : (0 : ℚ) < p := of_decide_eq_true hv
    cases hb : a == BUY <;>
      simp [applyOp, enter_position, hb, flatInvAmended, hp.ne']
  | exitOp p r =>
    cases hb : s.position == 0 with
    | true =>
      have : (exit_position s p r).2 = s := by simp [exit_position, hb]
      rw [applyOp, this]; exact h
    | false => simp [applyOp, exit_position, hb, flatInvAmended]
  | checkEntryOp d1 d10 i =>
    have hf := check_entry_signal_frame s d1 d10 i
    exact flatInvAmended_of_fields s _ hf.1 hf.2.1 hf.2.2.1 hf.2.2.2 h
  | checkExitOp d10 d1 t p i =>
    have hf := check_exit_signal_frame s d10 d1 t p i
    exact flatInvAmended_of_fields s _ hf.1 hf.2.1 hf.2.2.1 hf.2.2.2 h
  | updateOp tp sl ap m =>
    have hf := update_parameters_frame s tp sl ap m
    exact flatInvAmended_of_fields s _ hf.1 hf.2.1 hf.2.2.1 hf.2.2.2 h

/-- Folding valid operations preserves the amended flat invariant. -/
lemma flatInvAmended_fold (ops : List Op) : ∀ s : Strategy,
    (∀ op ∈ ops, validOp op = true) → flatInvAmended s →
    flatInvAmended (ops.foldl applyOp s) := by
  induction ops with
  | nil => intro s _ h; exact h
  | cons a l ih =>
    intro s hv h
    exact ih _ (fun op hop => hv op (List.mem_cons_of_mem a hop))
      (flatInvAmended_step s a (hv a (List.mem_cons_self a l)) h)

/-- C1 (counterexample): the three-way invariant claimed in the spec
fails on the code: update_parameters accepts the degenerate percentages
tp -100 and sl 100, after which a BUY entry at the positive price 100
produces an open position (entry price 100) whose TP and SL levels are
both exactly 0, breaking the chain entry_price == 0 iff no TP/SL set. -/
theorem C1_flat_invariant_counterexample :
    (∀ op ∈ opsC1, validOp op = true) ∧
    ¬ flatInvClaim (applyOps defaultStrategy opsC1) := by decide

/-- C1 (amended): after every sequence of operations on a freshly
constructed strategy in which each enter_position call uses a positive
price, the state is flat iff the entry price is 0, and a flat state has
no TP/SL levels set.  (The spec's further clause that zero TP/SL levels
imply a flat state is the part the counterexample refutes.) -/
theorem C1_flat_invariant (ops : List Op) (hv : ∀ op ∈ ops, validOp op = true) :
    flatInvAmended (applyOps defaultStrategy ops) :=
  flatInvAmended_fold ops defaultStrategy hv (by decide)

/-- C1 witness: a single BUY entry at price 5 satisfies the amended
invariant. -/
theorem C1_flat_invariant_witness :
    flatInvAmended (applyOps defaultStrategy [Op.enterOp BUY 5]) :=
  C1_flat_invariant [Op.enterOp BUY 5] (by decide)

/-- C2: on a long position whose TP (110) and SL (90) do not trigger at
price 100, check_exit_signal exits with ST_FLIP although the aligned
fast bar is not bearish in the documented sense: its close (50) is not
strictly below the band value (50).  The code treats close equal to the
band (and a NaN band) as bearish because it tests not (close greater
than band) rather than close less than band. -/
theorem C2_exit_on_band_tie :
    (PF.num 100).ge sC2.tp_price = false ∧
    (PF.num 100).le sC2.sl_price = false ∧
    ((d10tie.getD 0 dfltSTBar).close.lt (d10tie.getD 0 dfltSTBar).supertrend) = false ∧
    (check_exit_signal sC2 d10tie [] 10 (PF.num 100) 0).1 = some ST_FLIP := by decide

/-- C3: on the three-bar run the engine opens a short at 90 (the state
after the first two bars still holds entry price 90) and closes it at
100, yet the recorded trade carries entry_price 0: run_backtest reads
strategy.entry_price only after exit_position has already reset it.
The pnl of -100/9 percent is the one of an entry at 90, confirming
which position the record closed. -/
theorem C3_trade_entry_price_lost :
    midA.1.strategy.position = -1 ∧
    midA.1.strategy.entry_price = PF.num 90 ∧
    runA1.1.trades.map Trade.entry_price = [PF.num 0] ∧
    runA1.1.trades.map Trade.exit_price = [PF.num 100] ∧
    runA1.1.trades.map Trade.pnl_pct = [PF.num (-100 / 9)] := by decide

/-- C4 (counterexample): the same engine/strategy instance run twice on
identical inputs returns different statistics: the first run takes one
trade, the second none, because the strategy's last-signal guard and
already-traded flags persist across runs and suppress the entry. -/
theorem C4_two_runs_differ :
    runA1.1.total_trades = 1 ∧ runA2.1.total_trades = 0 := by decide

/-- C4 (amended): the backtest is deterministic in the engine state and
the inputs: engines in equal states produce identical statistics on
identical series.  Two runs on one instance coincide only when each run
starts from the same (for example freshly constructed) strategy state. -/
theorem C4_deterministic (e1 e2 : Engine) (d1 : List Bar1h) (d10 : List Bar10m)
    (h : e1 = e2) : (run_backtest e1 d1 d10).1 = (run_backtest e2 d1 d10).1 := by
  rw [h]

/-- C4 witness: determinism applied to the fresh engine on the
three-bar series. -/
theorem C4_deterministic_witness :
    (run_backtest engA d1hA d10A).1 = (run_backtest engA d1hA d10A).1 :=
  C4_deterministic engA engA d1hA d10A rfl

/-- C5 (counterexample): on two-bar series (fewer than three bars each)
run_backtest records one trade, not zero: a SELL entry fires on the
second bar and is force-closed at END_OF_DATA. -/
theorem C5_short_series_trades :
    d1hB.length < 3 ∧ d10B.length < 3 ∧ runB.1.total_trades = 1 := by decide

/-- C5 (amended): on empty series run_backtest returns the fully
populated all-zero statistics object (and, the embedding being total,
returns it without raising): zero trades and zero win rate, profit
factor, ROI, maximum drawdown and total P&L, with the capital intact.
For non-empty series of fewer than three bars it still returns a full
statistics object, but the trade count can be nonzero. -/
theorem C5_empty_input_zero_stats (s : Strategy) (c : PF) :
    (run_backtest (mkEngine s c) [] []).1.total_trades = 0 ∧
    (run_backtest (mkEngine s c) [] []).1.win_rate = PF.num 0 ∧
    (run_backtest (mkEngine s c) [] []).1.profit_factor = PF.num 0 ∧
    (run_backtest (mkEngine s c) [] []).1.roi = PF.num 0 ∧
    (run_backtest (mkEngine s c) [] []).1.max_drawdown = PF.num 0 ∧
    (run_backtest (mkEngine s c) [] []).1.total_pnl = PF.num 0 ∧
    (run_backtest (mkEngine s c) [] []).1.final_capital = c :=
  ⟨rfl, rfl, rfl, rfl, rfl, rfl, rfl⟩

/-- C6 (counterexample): on a monotonically rising four-bar series with
valid highs and lows (period 1, multiplier 1, so the ATR is defined
from the first bar) the direction column of calculate_supertrend flips
twice, not at most once. -/
theorem C6_direction_flips_twice :
    closesRising d10C = true ∧ validHL d10C = true ∧
    countFlips (stC.map STBar.st_direction) = 2 := by decide

/-- C6 (amended): for every series with monotonically rising closes,
each bar of calculate_supertrend whose close exceeds the resolved band
value carries st_positive = true, so the bullish flag becomes true no
later than the first such bar; the at-most-one-flip clause for the
direction column is the part the counterexample refutes. -/
theorem C6_st_positive_at_breakout (period : ℕ) (mult : PF) (bars : List Bar10m)
    (hmono : closesRising bars = true) (b : STBar)
    (hb : b ∈ calculate_supertrend period mult bars)
    (hgt : b.close.gt b.supertrend = true) : b.st_positive = true := by
  unfold calculate_supertrend at hb
  simp only [List.mem_map, List.mem_range] at hb
  obtain ⟨i, _, rfl⟩ := hb
  exact hgt

/-- C6 witness: the second bar of the rising run (close 11, band 0) is
flagged bullish. -/
theorem C6_st_positive_witness :
    STBar.st_positive ⟨1, PF.num 12, PF.num 10, PF.num 11, PF.num 0, 1, true⟩ = true :=
  C6_st_positive_at_breakout 1 (PF.num 1) d10C (by decide) _ (by decide) (by decide)

/-- C7: from every non-flat state, exit_position returns exactly the
percentage P&L relative to the entry price, records the reason in
last_exit_reason, resets position, entry price and TP/SL levels to the
flat state, and leaves both already-traded flags unchanged. -/
theorem C7_exit_frame (s : Strategy) (price : PF) (reason : String)
    (h : s.position ≠ 0) :
    (exit_position s price reason).1 = some (pctPnlSpec s.position s.entry_price price) ∧
    (exit_position s price reason).2.position = 0 ∧
    (exit_position s price reason).2.entry_price = PF.num 0 ∧
    (exit_position s price reason).2.tp_price = PF.num 0 ∧
    (exit_position s price reason).2.sl_price = PF.num 0 ∧
    (exit_position s price reason).2.last_exit_reason = some reason ∧
    (exit_position s price reason).2.traded_in_bull_trend = s.traded_in_bull_trend ∧
    (exit_position s price reason).2.traded_in_bear_trend = s.traded_in_bear_trend := by
  simp [exit_position, pctPnlSpec, h]

/-- C7 witness: exiting a fresh long (entered at 100) at 103. -/
theorem C7_exit_frame_witness :
    (exit_position (enter_position defaultStrategy BUY (PF.num 100)) (PF.num 103) MANUAL).2.position = 0 :=
  (C7_exit_frame (enter_position defaultStrategy BUY (PF.num 100)) (PF.num 103) MANUAL
    (by decide)).2.1

/-- C8 (counterexample): after a long entered at 100 is closed by a
take profit at 103, can_reenter returns true on data whose alignment is
bearish (slow close 90 below EMA 95, fast close 40 below band 50) even
though the closed trade was a BUY and the long-direction alignment does
not hold: the function ignores the direction of the closed trade. -/
theorem C8_reenter_opposite_direction :
    (enter_position defaultStrategy BUY (PF.num 100)).position = 1 ∧
    sC8.last_exit_reason = some TP_HIT ∧
    can_reenter sC8 d1hC8 d10C8 0 = true ∧
    ((d1hC8.getD 0 dfltEBar).close.gt (d1hC8.getD 0 dfltEBar).ema
      && (get_10m_supertrend_status d10C8 (d1hC8.getD 0 dfltEBar).time).1) = false := by
  decide

/-- C8 (amended): once last_exit_reason is set, can_reenter is true iff
that reason is TP_HIT, the index is in range, and slow close and the
aligned fast bar are directionally aligned on either side (above EMA
with a bullish band, or below EMA with a non-bullish band) — regardless
of the direction of the trade that was closed. -/
theorem C8_can_reenter_iff (s : Strategy) (d1 : List EBar) (d10 : List STBar)
    (idx : ℕ) (r : String) (h : s.last_exit_reason = some r) :
    can_reenter s d1 d10 idx =
      ((r == TP_HIT) && decide (idx < d1.length) &&
        ((d1.getD idx dfltEBar).close.gt (d1.getD idx dfltEBar).ema
            && (get_10m_supertrend_status d10 (d1.getD idx dfltEBar).time).1
         || (d1.getD idx dfltEBar).close.lt (d1.getD idx dfltEBar).ema
            && !(get_10m_supertrend_status d10 (d1.getD idx dfltEBar).time).1)) := by
  unfold can_reenter
  rw [h]
  by_cases hr : r = TP_HIT
  · subst hr
    by_cases hi : d1.length ≤ idx
    · simp [hi, Nat.not_lt_of_le hi]
    · simp [hi, Nat.lt_of_not_le hi]
  · simp [hr, bne_iff_ne, Ne.symm]

/-- C8 witness: the characterization instantiated on the bearish
re-entry data. -/
theorem C8_can_reenter_iff_witness :
    can_reenter sC8 d1hC8 d10C8 0 =
      ((TP_HIT == TP_HIT) && decide (0 < d1hC8.length) &&
        ((d1hC8.getD 0 dfltEBar).close.gt (d1hC8.getD 0 dfltEBar).ema
            && (get_10m_supertrend_status d10C8 (d1hC8.getD 0 dfltEBar).time).1
         || (d1hC8.getD 0 dfltEBar).close.lt (d1hC8.getD 0 dfltEBar).ema
            && !(get_10m_supertrend_status d10C8 (d1hC8.getD 0 dfltEBar).time).1)) :=
  C8_can_reenter_iff sC8 d1hC8 d10C8 0 TP_HIT (by decide)

/-- C9 (counterexample): update_parameters does not reject an
out-of-range band period: called with -5 on the default configuration
(period 55) it applies the value instead of leaving the prior
configuration in effect. -/
theorem C9_negative_period_applied :
    defaultStrategy.st_atr_period = 55 ∧
    (update_parameters defaultStrategy none none (some (-5)) none).st_atr_period = -5 := by
  decide

/-- C9 (amended): update_parameters performs no range validation: any
supplied band period, even a negative one, ends up as the configured
value (applied when it differs from the current one, already present
otherwise). -/
theorem C9_update_applies_any_value (s : Strategy) (v : ℤ) (hv : v < 0) :
    (update_parameters s none none (some v) none).st_atr_period = v := by
  by_cases h : v = s.st_atr_period
  · simp [update_parameters, reset_trade_flags, h]
  · simp [update_parameters, reset_trade_flags, h]

/-- C9 witness: a negative band period of -7 is applied on the default
configuration. -/
theorem C9_update_applies_witness :
    (update_parameters defaultStrategy none none (some (-7)) none).st_atr_period = -7 :=
  C9_update_applies_any_value defaultStrategy (-7) (by decide)

/-- C10: calling exit_position while flat is a no-op: it returns none
and the state, every field included, is returned unchanged. -/
theorem C10_exit_flat_noop (s : Strategy) (price : PF) (reason : String)
    (h : s.position = 0) : exit_position s price reason = (none, s) := by
  simp [exit_position, h]

/-- C10 witness: a spurious exit on the freshly constructed strategy. -/
theorem C10_exit_flat_noop_witness :
    exit_position defaultStrategy (PF.num 5) MANUAL = (none, defaultStrategy) :=
  C10_exit_flat_noop defaultStrategy (PF.num 5) MANUAL rfl

end Claims

end TWS
